import Mathlib

set_option maxHeartbeats 1000000

/-!
Verification of the data-preparation and forecast-orchestration pipeline of
`starter.py`: a dashboard that loads a monthly sales table, filters a known-bad
record, plots volume per selected part, and produces an h-step demand forecast
as a downloadable CSV.

The pandas dataframe operations are shallowly embedded over lists of typed
rows; a second, column-name-indexed frame model is used where column-level
(KeyError) behaviour matters.
-/

/-- A single cell as pandas stores it in an object column: either a numeric
value or a raw string. -/
inductive Cell where
  | int (n : Int)
  | str (s : String)
deriving DecidableEq

/-- Parses a run of decimal digits with accumulator `acc`; fails on the first
non-digit character. -/
def parse_digits (acc : Nat) : List Char → Option Nat
  | [] => some acc
  | c :: cs => if c.isDigit then parse_digits (acc * 10 + (c.toNat - '0'.toNat)) cs else none

/-- Parses a decimal integer (optional leading minus sign followed by digits);
fails on anything else. The dataset's volume values are integral, so this is
the string-to-number conversion both `pd.to_numeric` and `.astype(int)`
perform on them. -/
def parse_int_string (s : String) : Option Int :=
  match s.data with
  | [] => none
  | '-' :: cs =>
    match cs with
    | [] => none
    | _ :: _ => (parse_digits 0 cs).map (fun n => -(n : Int))
  | cs => (parse_digits 0 cs).map (fun n => (n : Int))

/-- Models `pd.to_numeric` on one cell of the value column: numeric cells are
kept, string cells are parsed as integers (the dataset's volumes are integral),
and unparseable strings fail (pandas raises). -/
def to_numeric : Cell → Option Int
  | Cell.int n => some n
  | Cell.str s => parse_int_string s

/-- Models `.astype(int)` on one cell: numeric cells are kept, string cells are
parsed as integers, and unparseable strings fail (pandas raises). -/
def astype_int : Cell → Option Int
  | Cell.int n => some n
  | Cell.str s => parse_int_string s

/-- One row of the `car_parts_monthly_sales` table after `pd.json_normalize`:
columns `id`, `parts_id`, `date`, `volume`. -/
structure Row where
  id : Int
  parts_id : Int
  date : String
  volume : Cell
deriving DecidableEq

/-- Models `create_dataframe`: flatten the query result to a dataframe and
drop every row with `date == "4/1/2002"` (the raw rows are the function's
input, standing for the result of `run_query`). -/
def create_dataframe (raw : List Row) : List Row :=
  raw.filter (fun r => decide (r.date ≠ "4/1/2002"))

/-- One row of the dataframe `format_dataset` builds for the forecasting
library, after dropping `id` and renaming to the canonical schema: columns
`unique_id`, `ds`, `y` (with `y` already coerced to numeric). -/
structure ForecastInputRow where
  unique_id : Int
  ds : String
  y : Int
deriving DecidableEq

/-- Models `format_dataset`: filter the normalized table to the selected
parts ids (`df[df['parts_id'].isin(ids)]`), drop the `id` column, rename
`parts_id`/`date`/`volume` to `unique_id`/`ds`/`y`, and coerce `y` with
`pd.to_numeric`, failing if any selected volume is not numeric. -/
def format_dataset (ids : List Int) (df : List Row) :
    Except String (List ForecastInputRow) :=
  let sel := df.filter (fun r => decide (r.parts_id ∈ ids))
  match sel.mapM (fun r => (to_numeric r.volume).map
      (fun n => ({ unique_id := r.parts_id, ds := r.date, y := n } : ForecastInputRow))) with
  | some out => Except.ok out
  | none => Except.error "Unable to parse string: to_numeric failed on the volume column"

/-- Models the column assignment `df['volume'] = df['volume'].astype(int)` in
`plot_volume`: coerce every volume cell of the shared table to an integer.
Yields `none` when any cell fails to parse (pandas raises before assigning, so
the shared table is then left unchanged). -/
def astype_volume (df : List Row) : Option (List Row) :=
  df.mapM (fun r => (astype_int r.volume).map
    (fun n => ({ r with volume := Cell.int n } : Row)))

/-- Models `plot_volume`: it mutates the shared dataframe by coercing its
`volume` column to integer before plotting, so it is embedded as a state
transformer returning its unit result together with the new value of the
shared table (unchanged when the coercion raises). The chart itself is an
external display effect with no further table effect; `ids` only selects
which series are drawn. -/
def plot_volume (ids : List Int) (df : List Row) : Except String Unit × List Row :=
  match astype_volume df with
  | some df2 => (Except.ok (), df2)
  | none => (Except.error "invalid literal for int", df)

/-- Models `format_dataset` as a transformer of the shared table, for the
frame-effect claim: `df[df['parts_id'].isin(ids)]` boolean indexing returns a
copy, and the subsequent `drop`, in-place `rename` and `to_numeric` column
assignment act on that copy only, so the shared-table component comes back as
it was. -/
def format_dataset_st (ids : List Int) (df : List Row) :
    Except String (List ForecastInputRow) × List Row :=
  (format_dataset ids df, df)

/-- Header line of `forecast_df.to_csv(header=True)`: the index column
`unique_id` followed by `ds` and the fixed model's prediction column. -/
def csv_header : String := "unique_id,ds,CrostonOptimized"

/-- Modelled from the spec: the forecasting library call
(`StatsForecast(models=[CrostonOptimized()], freq='MS').forecast(h)`, external
to this repository) returns one forecast row per (series id, forecast step):
`h` rows for each distinct `unique_id` occurring in the input dataframe. A row
is abstracted as the pair of the series id and the step index; forecast dates
and predicted values are produced by the library. -/
def sf_forecast (mdf : List ForecastInputRow) (h : Nat) : List (Int × Nat) :=
  ((mdf.map (fun r => r.unique_id)).dedup).product (List.range h)

/-- Modelled from the spec: serialization of one forecast row as one CSV data
line (the series id, then the library-produced date and prediction, abstracted
here by the step index). -/
def csv_line (p : Int × Nat) : String :=
  toString p.1 ++ "," ++ toString p.2

/-- Models `make_predictions`: format the dataset for the selected ids, build
the forecasting session, run it for `horizon` steps, and serialize the result
with `to_csv(header=True)`, returned as the list of CSV lines, header line
first. -/
def make_predictions (ids : List Int) (horizon : Nat) (df : List Row) :
    Except String (List String) :=
  (format_dataset ids df).map
    (fun mdf => csv_header :: (sf_forecast mdf horizon).map csv_line)

/-- Models `st.slider("Horizon", 1, 12, step=1)`: whatever the user input is,
the widget yields a value clamped to the range 1..12. -/
def horizon_slider (u : Nat) : Nat := min 12 (max 1 u)

/-- Python's `sep.join(pieces)`: empty for no pieces, otherwise the pieces in
order with `sep` between consecutive ones. -/
def str_join (sep : String) : List String → String
  | [] => ""
  | [s] => s
  | s :: s2 :: rest => s ++ sep ++ str_join sep (s2 :: rest)

/-- Models `"_".join(str(id_i) for id_i in product_ids)`. -/
def ids_for_file_name (product_ids : List Int) : String :=
  str_join "_" (product_ids.map toString)

/-- Models the f-string building the download file name from the joined ids
and the horizon. -/
def forecast_file_name (product_ids : List Int) (horizon : Nat) : String :=
  "forecast_" ++ ids_for_file_name product_ids ++ "_" ++ toString horizon ++ ".csv"

/-- Outcome of the Forecast expander in the `__main__` block. -/
inductive UIOutcome where
  | warning (msg : String)
  | download (file_name : String) (csv : List String)
  | idle
  | failure (msg : String)
deriving DecidableEq

/-- Models the Forecast expander of the `__main__` block: an empty selection
shows a warning and nothing else runs; otherwise the slider yields the horizon
and, when the button is pressed, `make_predictions` runs and its CSV is
offered for download under the generated file name (a raised error surfaces as
a failure). -/
def forecast_expander (df : List Row) (product_ids : List Int)
    (slider_input : Nat) (forecast_btn : Bool) : UIOutcome :=
  if product_ids.length = 0 then
    UIOutcome.warning "Select at least one product ID to forecast"
  else
    let horizon := horizon_slider slider_input
    if forecast_btn then
      match make_predictions product_ids horizon df with
      | Except.ok csv_file =>
          UIOutcome.download (forecast_file_name product_ids horizon) csv_file
      | Except.error e => UIOutcome.failure e
    else UIOutcome.idle

/-- A dataframe with its column labels explicit, for the claims where pandas
column-level behaviour (KeyError on a missing label) matters: a list of column
names and one cell list per row. -/
structure Frame where
  cols : List String
  cells : List (List Cell)
deriving DecidableEq

/-- Models `df[df['parts_id'].isin(ids)]` on a labelled frame: selecting the
`parts_id` column raises a KeyError when the label is absent; otherwise the
rows whose `parts_id` cell is one of `ids` are kept (boolean-mask indexing,
returning a copy). -/
def isin_select (ids : List Int) (f : Frame) : Except String Frame :=
  match f.cols.findIdx? (fun c => c == "parts_id") with
  | none => Except.error "KeyError: parts_id"
  | some i => Except.ok
      { cols := f.cols,
        cells := f.cells.filter (fun row =>
          match row.get? i with
          | some (Cell.int n) => decide (n ∈ ids)
          | _ => false) }

/-- Models `.drop([c], axis=1)`: raises a KeyError when the label is absent,
otherwise removes that column from the labels and from every row. -/
def drop_col (c : String) (f : Frame) : Except String Frame :=
  match f.cols.findIdx? (fun c2 => c2 == c) with
  | none => Except.error ("KeyError: " ++ c)
  | some i => Except.ok
      { cols := f.cols.eraseIdx i,
        cells := f.cells.map (fun row => row.eraseIdx i) }

/-- The column mapping of the `rename` call in `format_dataset`. -/
def format_rename_map (c : String) : String :=
  if c = "parts_id" then "unique_id"
  else if c = "date" then "ds"
  else if c = "volume" then "y"
  else c

/-- Models `.rename(mapping, axis=1, inplace=True)`: relabels columns; labels
not mentioned in the mapping are kept, and pandas does not raise when a mapped
label is absent. -/
def rename_cols (m : String → String) (f : Frame) : Frame :=
  { cols := f.cols.map m, cells := f.cells }

/-- Models the assignment `model_df["y"] = pd.to_numeric(model_df["y"])`:
raises a KeyError when the label is absent, raises a parse error when any cell
of the column is not numeric, and otherwise replaces each cell of the column
with its numeric value. -/
def to_numeric_col (c : String) (f : Frame) : Except String Frame :=
  match f.cols.findIdx? (fun c2 => c2 == c) with
  | none => Except.error ("KeyError: " ++ c)
  | some i =>
    match f.cells.mapM (fun row =>
        match row.get? i with
        | some v => (to_numeric v).map (fun n => row.set i (Cell.int n))
        | none => none) with
    | some cells2 => Except.ok { cols := f.cols, cells := cells2 }
    | none => Except.error "Unable to parse string: to_numeric failed"

/-- The body of `format_dataset`, statement by statement, on a labelled
frame: `isin` filter, drop `id`, rename to the canonical schema, coerce `y`.
-/
def format_dataset_frame (ids : List Int) (f : Frame) : Except String Frame := do
  let f1 ← isin_select ids f
  let f2 ← drop_col "id" f1
  let f3 := rename_cols format_rename_map f2
  to_numeric_col "y" f3

/-- A one-record normalized frame with the table's schema, used as concrete
input below. -/
def sample_frame : Frame :=
  { cols := ["id", "parts_id", "date", "volume"],
    cells := [[Cell.int 1, Cell.int 2674, Cell.str "1/1/2002", Cell.int 5]] }

/-- The frame `format_dataset_frame [2674]` produces from `sample_frame`. -/
def sample_formatted : Frame :=
  { cols := ["unique_id", "ds", "y"],
    cells := [[Cell.int 2674, Cell.str "1/1/2002", Cell.int 5]] }

/-- A raw record at the excluded date belonging to a part other than 2673. -/
def stray_bad_date_row : Row :=
  { id := 1, parts_id := 99, date := "4/1/2002", volume := Cell.int 5 }

/-!  Helper lemmas. -/

theorem except_bind_ok {α β : Type} {e : Except String α} {f : α → Except String β}
    {b : β} (h : (e >>= f) = Except.ok b) : ∃ a, e = Except.ok a ∧ f a = Except.ok b := by
  cases e with
  | ok a =>
    refine ⟨a, rfl, ?_⟩
    simpa [Bind.bind, Except.bind] using h
  | error msg => simp [Bind.bind, Except.bind] at h

theorem except_bind_error {α β : Type} {f : α → Except String β} {msg : String} :
    ((Except.error msg : Except String α) >>= f) = Except.error msg := by
  simp [Bind.bind, Except.bind]

theorem mapM_format_ok (sel : List Row)
    (h : ∀ r ∈ sel, (to_numeric r.volume).isSome) :
    ∃ out, sel.mapM (fun r => (to_numeric r.volume).map
        (fun n => ({ unique_id := r.parts_id, ds := r.date, y := n } : ForecastInputRow)))
        = some out
      ∧ List.Forall₂ (fun (r : Row) (m : ForecastInputRow) =>
          m.unique_id = r.parts_id ∧ m.ds = r.date ∧ to_numeric r.volume = some m.y)
        sel out := by
  induction sel with
  | nil => exact ⟨[], rfl, List.Forall₂.nil⟩
  | cons r rs ih =>
    obtain ⟨n, hn⟩ := Option.isSome_iff_exists.mp (h r (by simp))
    obtain ⟨out, hout, hfa⟩ := ih (fun r2 hr2 => h r2 (by simp [hr2]))
    refine ⟨{ unique_id := r.parts_id, ds := r.date, y := n } :: out, ?_, ?_⟩
    · rw [List.mapM_cons, hn, hout]
      rfl
    · exact List.Forall₂.cons ⟨rfl, rfl, hn⟩ hfa

theorem mapM_format_none (sel : List Row)
    (h : ∃ r ∈ sel, to_numeric r.volume = none) :
    sel.mapM (fun r => (to_numeric r.volume).map
        (fun n => ({ unique_id := r.parts_id, ds := r.date, y := n } : ForecastInputRow)))
        = none := by
  induction sel with
  | nil => simp at h
  | cons r rs ih =>
    obtain ⟨r2, hmem, hr2⟩ := h
    rw [List.mapM_cons]
    rcases List.mem_cons.mp hmem with heq | htail
    · subst heq
      rw [hr2]
      rfl
    · cases hv : to_numeric r.volume with
      | none => rfl
      | some n =>
        rw [ih ⟨r2, htail, hr2⟩]
        rfl

theorem astype_volume_ok (df : List Row)
    (h : ∀ r ∈ df, (astype_int r.volume).isSome) :
    ∃ df2, astype_volume df = some df2
      ∧ List.Forall₂ (fun (r r2 : Row) =>
          r2.id = r.id ∧ r2.parts_id = r.parts_id ∧ r2.date = r.date
          ∧ ∃ n, astype_int r.volume = some n ∧ r2.volume = Cell.int n) df df2 := by
  unfold astype_volume
  induction df with
  | nil => exact ⟨[], rfl, List.Forall₂.nil⟩
  | cons r rs ih =>
    obtain ⟨n, hn⟩ := Option.isSome_iff_exists.mp (h r (by simp))
    obtain ⟨df2, hdf2, hfa⟩ := ih (fun r2 hr2 => h r2 (by simp [hr2]))
    refine ⟨{ r with volume := Cell.int n } :: df2, ?_, ?_⟩
    · rw [List.mapM_cons, hn, hdf2]
      rfl
    · exact List.Forall₂.cons ⟨rfl, rfl, rfl, n, hn, rfl⟩ hfa

/-!  Claim theorems. -/

/-- C1: for every raw row set, `create_dataframe` removes every record whose
date equals "4/1/2002" and preserves every other record unchanged, in count
(multiplicity) and in all field values: every surviving record has another
date, records at the bad date have multiplicity zero afterwards, records at
any other date keep their exact multiplicity, and the result is a sublist of
the input (no record is altered or reordered). -/
theorem create_dataframe_removes_bad_date_preserves_rest (raw : List Row) :
    (∀ r ∈ create_dataframe raw, r.date ≠ "4/1/2002")
    ∧ (∀ r : Row, r.date = "4/1/2002" → (create_dataframe raw).count r = 0)
    ∧ (∀ r : Row, r.date ≠ "4/1/2002" → (create_dataframe raw).count r = raw.count r)
    ∧ (create_dataframe raw).Sublist raw := by
  refine ⟨?_, ?_, ?_, ?_⟩
  · intro r hr
    have := List.of_mem_filter hr
    simpa using this
  · intro r hr
    rw [List.count_eq_zero]
    intro hmem
    have := List.of_mem_filter hmem
    simp [hr] at this
  · intro r hr
    unfold create_dataframe
    rw [List.count_filter]
    simpa using hr
  · exact List.filter_sublist raw

/-- C3: for every identifier set, `format_dataset` returns exactly the rows of
the normalized table whose `parts_id` is selected, in order, each with the
`id` column dropped and the remaining columns renamed to `unique_id`, `ds`,
`y` (the latter numerically coerced); no other rows are included. Stated via
`Forall₂` against the filtered table, which forces a one-to-one, order- and
content-preserving correspondence. The hypothesis is that every selected
volume is numeric (otherwise the call raises instead). -/
theorem format_dataset_filters_drops_renames (ids : List Int) (df : List Row)
    (hnum : ∀ r ∈ df, r.parts_id ∈ ids → (to_numeric r.volume).isSome) :
    ∃ out, format_dataset ids df = Except.ok out
      ∧ List.Forall₂ (fun (r : Row) (m : ForecastInputRow) =>
          m.unique_id = r.parts_id ∧ m.ds = r.date ∧ to_numeric r.volume = some m.y)
        (df.filter (fun r => decide (r.parts_id ∈ ids))) out := by
  obtain ⟨out, hout, hfa⟩ := mapM_format_ok (df.filter (fun r => decide (r.parts_id ∈ ids)))
    (fun r hr => by
      have hmem := List.mem_filter.mp hr
      exact hnum r hmem.1 (by simpa using hmem.2))
  refine ⟨out, ?_, hfa⟩
  simp only [format_dataset]
  rw [hout]

/-- Witness for C3 at a concrete input. -/
theorem format_dataset_filters_drops_renames_witness :
    ∃ out, format_dataset [2674]
        [{ id := 1, parts_id := 2674, date := "1/1/2002", volume := Cell.int 5 }]
        = Except.ok out
      ∧ List.Forall₂ (fun (r : Row) (m : ForecastInputRow) =>
          m.unique_id = r.parts_id ∧ m.ds = r.date ∧ to_numeric r.volume = some m.y)
        (([{ id := 1, parts_id := 2674, date := "1/1/2002", volume := Cell.int 5 }] : List Row).filter
          (fun r => decide (r.parts_id ∈ [2674]))) out :=
  format_dataset_filters_drops_renames [2674]
    [{ id := 1, parts_id := 2674, date := "1/1/2002", volume := Cell.int 5 }] (by decide)

/-- C4: for every identifier set, if any selected record's volume is not
parseable as a number, `format_dataset` fails with a reported error: the
result is an error value, never a success (so no value is silently zeroed and
no record silently dropped). -/
theorem format_dataset_fails_on_non_numeric (ids : List Int) (df : List Row)
    (hbad : ∃ r ∈ df, r.parts_id ∈ ids ∧ to_numeric r.volume = none) :
    (∃ msg, format_dataset ids df = Except.error msg)
    ∧ ∀ out, format_dataset ids df ≠ Except.ok out := by
  obtain ⟨r, hrdf, hrids, hrnone⟩ := hbad
  have hnone := mapM_format_none (df.filter (fun r => decide (r.parts_id ∈ ids)))
    ⟨r, List.mem_filter.mpr ⟨hrdf, by simpa using hrids⟩, hrnone⟩
  have herr : format_dataset ids df
      = Except.error "Unable to parse string: to_numeric failed on the volume column" := by
    simp only [format_dataset]
    rw [hnone]
  exact ⟨⟨_, herr⟩, fun out hout => by rw [herr] at hout; exact Except.noConfusion hout⟩

/-- Witness for C4 at a concrete input with a non-numeric volume. -/
theorem format_dataset_fails_on_non_numeric_witness :
    (∃ msg, format_dataset [7]
        [{ id := 1, parts_id := 7, date := "1/1/2002", volume := Cell.str "abc" }]
        = Except.error msg)
    ∧ ∀ out, format_dataset [7]
        [{ id := 1, parts_id := 7, date := "1/1/2002", volume := Cell.str "abc" }]
        ≠ Except.ok out :=
  format_dataset_fails_on_non_numeric [7]
    [{ id := 1, parts_id := 7, date := "1/1/2002", volume := Cell.str "abc" }]
    ⟨{ id := 1, parts_id := 7, date := "1/1/2002", volume := Cell.str "abc" },
      by decide, by decide, by decide⟩

/-- C10: for every identifier set whose selected records all have numeric
volumes, `format_dataset` succeeds and leaves the shared normalized table
unchanged: its filter, drop, rename and coercion act on a derived copy, so the
shared-table component of the stateful embedding comes back equal to the
input. -/
theorem format_dataset_st_preserves_shared_table (ids : List Int) (df : List Row)
    (hnum : ∀ r ∈ df, r.parts_id ∈ ids → (to_numeric r.volume).isSome) :
    (format_dataset_st ids df).2 = df
    ∧ ∃ out, (format_dataset_st ids df).1 = Except.ok out := by
  refine ⟨rfl, ?_⟩
  obtain ⟨out, hout, -⟩ := mapM_format_ok (df.filter (fun r => decide (r.parts_id ∈ ids)))
    (fun r hr => by
      have hmem := List.mem_filter.mp hr
      exact hnum r hmem.1 (by simpa using hmem.2))
  refine ⟨out, ?_⟩
  simp only [format_dataset_st, format_dataset]
  rw [hout]

/-- Witness for C10 at a concrete input. -/
theorem format_dataset_st_preserves_shared_table_witness :
    (format_dataset_st [3]
        [{ id := 2, parts_id := 3, date := "2/1/2002", volume := Cell.str "8" }]).2
      = [{ id := 2, parts_id := 3, date := "2/1/2002", volume := Cell.str "8" }]
    ∧ ∃ out, (format_dataset_st [3]
        [{ id := 2, parts_id := 3, date := "2/1/2002", volume := Cell.str "8" }]).1
      = Except.ok out :=
  format_dataset_st_preserves_shared_table [3]
    [{ id := 2, parts_id := 3, date := "2/1/2002", volume := Cell.str "8" }] (by decide)

/-- C8: for every identifier set, `plot_volume` coerces the shared table's
volume column to integer type in place, returning the mutated table as the new
shared state, and every column other than volume is unchanged: the new table
is row-for-row equal to the old on `id`, `parts_id` and `date`, and every new
volume cell is the integer coercion of the old one. The hypothesis is that
every volume is coercible (otherwise the call raises and the table stays). -/
theorem plot_volume_coerces_volume_in_place (ids : List Int) (df : List Row)
    (h : ∀ r ∈ df, (astype_int r.volume).isSome) :
    ∃ df2, plot_volume ids df = (Except.ok (), df2)
      ∧ List.Forall₂ (fun (r r2 : Row) =>
          r2.id = r.id ∧ r2.parts_id = r.parts_id ∧ r2.date = r.date
          ∧ ∃ n, astype_int r.volume = some n ∧ r2.volume = Cell.int n) df df2 := by
  obtain ⟨df2, hdf2, hfa⟩ := astype_volume_ok df h
  refine ⟨df2, ?_, hfa⟩
  simp only [plot_volume]
  rw [hdf2]

/-- Witness for C8 at a concrete input whose volume cell is a numeric string,
so the coercion genuinely rewrites the shared table. -/
theorem plot_volume_coerces_volume_in_place_witness :
    ∃ df2, plot_volume [2674]
        [{ id := 1, parts_id := 2674, date := "1/1/2002", volume := Cell.str "3" }]
      = (Except.ok (), df2)
      ∧ List.Forall₂ (fun (r r2 : Row) =>
          r2.id = r.id ∧ r2.parts_id = r.parts_id ∧ r2.date = r.date
          ∧ ∃ n, astype_int r.volume = some n ∧ r2.volume = Cell.int n)
        [{ id := 1, parts_id := 2674, date := "1/1/2002", volume := Cell.str "3" }] df2 :=
  plot_volume_coerces_volume_in_place [2674]
    [{ id := 1, parts_id := 2674, date := "1/1/2002", volume := Cell.str "3" }] (by decide)

/-- C5: whenever the identifier selection is empty and forecasting is
requested, the expander shows the user-facing warning, for every table, slider
input and button state alike; in particular neither `format_dataset` nor the
forecasting adapter can influence the outcome (the equation holds even for
tables on which they would fail), and the outcome is a warning, not a
failure. -/
theorem empty_selection_shows_warning (df : List Row) (slider_input : Nat)
    (forecast_btn : Bool) :
    forecast_expander df [] slider_input forecast_btn
      = UIOutcome.warning "Select at least one product ID to forecast" := rfl

theorem str_join_append_singleton (sep y : String) (xs : List String) (hxs : xs ≠ []) :
    str_join sep (xs ++ [y]) = str_join sep xs ++ sep ++ y := by
  induction xs with
  | nil => exact absurd rfl hxs
  | cons x t ih =>
    cases t with
    | nil => rfl
    | cons x2 t2 =>
      have ih2 := ih (by simp)
      show x ++ sep ++ str_join sep ((x2 :: t2) ++ [y])
        = (x ++ sep ++ str_join sep (x2 :: t2)) ++ sep ++ y
      rw [ih2]
      simp only [String.append_assoc]

/-- C6: for every nonempty identifier list and horizon, the suggested download
file name is the ids rendered in selection order and joined by underscores,
followed by the horizon, inside `forecast_` and `.csv`; and at ids
`[12, 34]` with horizon `5` it is exactly `forecast_12_34_5.csv`. -/
theorem forecast_file_name_spec (ids : List Int) (h : Nat) (hne : ids ≠ []) :
    forecast_file_name ids h
      = "forecast_" ++ str_join "_" (ids.map toString ++ [toString h]) ++ ".csv"
    ∧ forecast_file_name [12, 34] 5 = "forecast_12_34_5.csv" := by
  constructor
  · rw [forecast_file_name, ids_for_file_name,
      str_join_append_singleton "_" (toString h) (ids.map toString) (by simpa using hne)]
    simp only [String.append_assoc]
  · rfl

/-- Witness for C6 at the spec's concrete input. -/
theorem forecast_file_name_spec_witness :
    forecast_file_name [12, 34] 5
      = "forecast_" ++ str_join "_" (([12, 34] : List Int).map toString ++ [toString (5 : Nat)]) ++ ".csv"
    ∧ forecast_file_name [12, 34] 5 = "forecast_12_34_5.csv" :=
  forecast_file_name_spec [12, 34] 5 (by decide)

theorem length_list_product {α β : Type} (l₁ : List α) (l₂ : List β) :
    (l₁.product l₂).length = l₁.length * l₂.length :=
  List.length_product l₁ l₂

theorem forall₂_map_unique_id {sel : List Row} {out : List ForecastInputRow}
    (hfa : List.Forall₂ (fun (r : Row) (m : ForecastInputRow) =>
        m.unique_id = r.parts_id ∧ m.ds = r.date ∧ to_numeric r.volume = some m.y) sel out) :
    out.map (fun m => m.unique_id) = sel.map (fun r => r.parts_id) := by
  induction hfa with
  | nil => rfl
  | cons h _ ih => simp [ih, h.1]

theorem sel_parts_toFinset (ids : List Int) (df : List Row)
    (hpres : ∀ i ∈ ids, ∃ r ∈ df, r.parts_id = i) :
    ((df.filter (fun r => decide (r.parts_id ∈ ids))).map (fun r => r.parts_id)).toFinset
      = ids.toFinset := by
  ext a
  simp only [List.mem_toFinset, List.mem_map, List.mem_filter, decide_eq_true_eq]
  constructor
  · rintro ⟨r, ⟨hrdf, hrids⟩, rfl⟩
    exact hrids
  · intro ha
    obtain ⟨r, hrdf, hr⟩ := hpres a ha
    exact ⟨r, ⟨hrdf, hr ▸ ha⟩, hr⟩

/-- C2 counterexample: the claim fails for an arbitrary identifier set. With
`ids = [999]`, an identifier that has no record in the table, and horizon 1,
the produced CSV is the header line alone: 1 line in total, not
`|ids| * 1 + 1 = 2` lines. -/
theorem make_predictions_row_count_cex :
    make_predictions [999] 1
        [{ id := 1, parts_id := 2674, date := "1/1/2002", volume := Cell.int 5 }]
      = Except.ok [csv_header]
    ∧ ([csv_header] : List String).length ≠ [(999 : Int)].length * 1 + 1 := by
  exact ⟨rfl, by decide⟩

/-- C2 (amended): for every nonempty, duplicate-free identifier list whose
identifiers all occur in the normalized table (which the UI multiselect
guarantees, its options being the table's distinct parts ids) and whose
selected records all have numeric volumes, and every horizon `h` in 1..12,
`make_predictions` succeeds and its CSV consists of exactly
`|ids| * h` data lines plus the single leading header line; moreover the UI
slider only ever yields a horizon in 1..12. -/
theorem make_predictions_row_count (ids : List Int) (h : Nat) (df : List Row)
    (hne : ids ≠ []) (hnodup : ids.Nodup)
    (hpres : ∀ i ∈ ids, ∃ r ∈ df, r.parts_id = i)
    (hnum : ∀ r ∈ df, r.parts_id ∈ ids → (to_numeric r.volume).isSome)
    (h1 : 1 ≤ h) (h12 : h ≤ 12) :
    (∃ lines, make_predictions ids h df = Except.ok lines
      ∧ lines.length = ids.length * h + 1
      ∧ lines.head? = some csv_header)
    ∧ ∀ u : Nat, 1 ≤ horizon_slider u ∧ horizon_slider u ≤ 12 := by
  constructor
  · obtain ⟨out, hout, hfa⟩ := mapM_format_ok (df.filter (fun r => decide (r.parts_id ∈ ids)))
      (fun r hr => by
        have hmem := List.mem_filter.mp hr
        exact hnum r hmem.1 (by simpa using hmem.2))
    have hfmt : format_dataset ids df = Except.ok out := by
      simp only [format_dataset]
      rw [hout]
    refine ⟨csv_header :: (sf_forecast out h).map csv_line, ?_, ?_, rfl⟩
    · simp [make_predictions, hfmt, Except.map]
    · have hdedup : ((df.filter (fun r => decide (r.parts_id ∈ ids))).map
          (fun r => r.parts_id)).dedup.length = ids.length := by
        rw [← List.card_toFinset, sel_parts_toFinset ids df hpres,
          List.card_toFinset, hnodup.dedup]
      simp only [List.length_cons, List.length_map, sf_forecast, length_list_product,
        List.length_range, forall₂_map_unique_id hfa, hdedup]
  · intro u
    unfold horizon_slider
    exact ⟨Nat.le_min.mpr ⟨by norm_num, Nat.le_max_left 1 u⟩, Nat.min_le_left 12 _⟩

/-- Witness for the amended C2 at a concrete input: one selected series,
horizon 3, giving 3 data lines plus the header. -/
theorem make_predictions_row_count_witness :
    (∃ lines, make_predictions [2674] 3
        [{ id := 1, parts_id := 2674, date := "1/1/2002", volume := Cell.int 5 }]
      = Except.ok lines
      ∧ lines.length = [(2674 : Int)].length * 3 + 1
      ∧ lines.head? = some csv_header)
    ∧ ∀ u : Nat, 1 ≤ horizon_slider u ∧ horizon_slider u ≤ 12 :=
  make_predictions_row_count [2674] 3
    [{ id := 1, parts_id := 2674, date := "1/1/2002", volume := Cell.int 5 }]
    (by decide) (by decide) (by decide) (by decide) (by decide) (by decide)

/-- C9 counterexample: the exclusion is by date alone, not targeted at
parts id 2673. A raw record at date "4/1/2002" belonging to parts id 99 is
also removed by `create_dataframe`, refuting "removes no record belonging to
any other parts_id" for arbitrary raw row sets. -/
theorem create_dataframe_removes_other_parts_cex :
    stray_bad_date_row.parts_id ≠ 2673
    ∧ stray_bad_date_row ∈ [stray_bad_date_row]
    ∧ stray_bad_date_row ∉ create_dataframe [stray_bad_date_row] := by decide

/-- C9 (amended): the unconditional pre-use exclusion removes exactly the
records at date "4/1/2002"; under the dataset invariant, namely that only
parts id 2673 has a record at that date and that all other (parts_id, date)
pairs are pairwise distinct, normalization removes only records of parts id
2673 (every removed record has that parts id), removes no record belonging to
any other parts id, and afterwards every (parts_id, date) pair occurs at most
once in the table. -/
theorem create_dataframe_exclusion_targeted (raw : List Row)
    (hanom : ∀ r ∈ raw, r.date = "4/1/2002" → r.parts_id = 2673)
    (hinv : raw.Pairwise (fun a b => a.date ≠ "4/1/2002" → b.date ≠ "4/1/2002" →
        (a.parts_id, a.date) ≠ (b.parts_id, b.date))) :
    (∀ r ∈ raw, r.date = "4/1/2002" → r.parts_id = 2673 ∧ r ∉ create_dataframe raw)
    ∧ (∀ r ∈ raw, r.parts_id ≠ 2673 → r ∈ create_dataframe raw)
    ∧ (create_dataframe raw).Pairwise
        (fun a b => (a.parts_id, a.date) ≠ (b.parts_id, b.date)) := by
  refine ⟨?_, ?_, ?_⟩
  · intro r hr hdate
    refine ⟨hanom r hr hdate, fun hmem => ?_⟩
    have := List.of_mem_filter hmem
    simp [hdate] at this
  · intro r hr hpid
    refine List.mem_filter.mpr ⟨hr, ?_⟩
    simp only [decide_eq_true_eq]
    intro hdate
    exact hpid (hanom r hr hdate)
  · have hsub : (create_dataframe raw).Sublist raw := List.filter_sublist raw
    have hpw := List.Pairwise.sublist hsub hinv
    refine hpw.imp_of_mem ?_
    intro a b ha hb hab
    have hda := List.of_mem_filter ha
    have hdb := List.of_mem_filter hb
    exact hab (by simpa using hda) (by simpa using hdb)

/-- Witness for the amended C9 on a concrete two-record raw set satisfying the
dataset invariant. -/
theorem create_dataframe_exclusion_targeted_witness :
    (∀ r ∈ [({ id := 1, parts_id := 2673, date := "4/1/2002", volume := Cell.int 0 } : Row),
        { id := 2, parts_id := 2674, date := "3/1/2002", volume := Cell.int 7 }],
      r.date = "4/1/2002" → r.parts_id = 2673
        ∧ r ∉ create_dataframe [({ id := 1, parts_id := 2673, date := "4/1/2002", volume := Cell.int 0 } : Row),
            { id := 2, parts_id := 2674, date := "3/1/2002", volume := Cell.int 7 }])
    ∧ (∀ r ∈ [({ id := 1, parts_id := 2673, date := "4/1/2002", volume := Cell.int 0 } : Row),
        { id := 2, parts_id := 2674, date := "3/1/2002", volume := Cell.int 7 }],
      r.parts_id ≠ 2673 → r ∈ create_dataframe [({ id := 1, parts_id := 2673, date := "4/1/2002", volume := Cell.int 0 } : Row),
            { id := 2, parts_id := 2674, date := "3/1/2002", volume := Cell.int 7 }])
    ∧ (create_dataframe [({ id := 1, parts_id := 2673, date := "4/1/2002", volume := Cell.int 0 } : Row),
        { id := 2, parts_id := 2674, date := "3/1/2002", volume := Cell.int 7 }]).Pairwise
        (fun a b => (a.parts_id, a.date) ≠ (b.parts_id, b.date)) :=
  create_dataframe_exclusion_targeted
    [{ id := 1, parts_id := 2673, date := "4/1/2002", volume := Cell.int 0 },
      { id := 2, parts_id := 2674, date := "3/1/2002", volume := Cell.int 7 }]
    (by decide) (by decide)

theorem isin_select_ok_cols {ids : List Int} {f f1 : Frame}
    (h : isin_select ids f = Except.ok f1) : f1.cols = f.cols := by
  unfold isin_select at h
  cases hidx : f.cols.findIdx? (fun c => c == "parts_id") with
  | none => rw [hidx] at h; exact Except.noConfusion h
  | some i =>
    rw [hidx] at h
    injection h with h
    rw [← h]

theorem drop_col_ok_cols {c : String} {f f1 : Frame}
    (h : drop_col c f = Except.ok f1) :
    ∃ i, f.cols.findIdx? (fun c2 => c2 == c) = some i ∧ f1.cols = f.cols.eraseIdx i := by
  unfold drop_col at h
  cases hidx : f.cols.findIdx? (fun c2 => c2 == c) with
  | none => rw [hidx] at h; exact Except.noConfusion h
  | some i =>
    rw [hidx] at h
    injection h with h
    exact ⟨i, rfl, by rw [← h]⟩

theorem to_numeric_col_ok_cols {c : String} {f g : Frame}
    (h : to_numeric_col c f = Except.ok g) : g.cols = f.cols := by
  unfold to_numeric_col at h
  split at h
  · exact Except.noConfusion h
  · split at h
    · injection h with h
      rw [← h]
    · exact Except.noConfusion h

theorem format_dataset_frame_ok_cols {ids : List Int} {f g : Frame}
    (hcols : f.cols = ["id", "parts_id", "date", "volume"])
    (hok : format_dataset_frame ids f = Except.ok g) :
    g.cols = ["unique_id", "ds", "y"] := by
  unfold format_dataset_frame at hok
  obtain ⟨f1, h1, hok⟩ := except_bind_ok hok
  obtain ⟨f2, h2, hok⟩ := except_bind_ok hok
  have hc1 : f1.cols = ["id", "parts_id", "date", "volume"] :=
    (isin_select_ok_cols h1).trans hcols
  obtain ⟨i, hidx, hc2⟩ := drop_col_ok_cols h2
  rw [hc1] at hidx
  rw [show List.findIdx? (fun c2 => c2 == "id") ["id", "parts_id", "date", "volume"]
      = some 0 from rfl] at hidx
  injection hidx with hidx
  rw [← hidx, hc1] at hc2
  have hc3 := to_numeric_col_ok_cols hok
  rw [hc3]
  show (rename_cols format_rename_map f2).cols = _
  unfold rename_cols
  rw [hc2]
  rfl

/-- C7 counterexample: formatting is not idempotent. On a concrete one-record
normalized frame, `format_dataset_frame` succeeds and yields the formatted
frame with columns `unique_id`, `ds`, `y`; applying it again with the same
identifier set to that result does not return it unchanged but raises the
pandas KeyError for the now-missing `parts_id` column. -/
theorem format_dataset_frame_not_idempotent :
    format_dataset_frame [2674] sample_frame = Except.ok sample_formatted
    ∧ format_dataset_frame [2674] sample_formatted = Except.error "KeyError: parts_id"
    ∧ (Except.error "KeyError: parts_id" : Except String Frame)
        ≠ Except.ok sample_formatted := by
  refine ⟨rfl, rfl, ?_⟩
  intro h
  exact Except.noConfusion h

/-- C7 (amended): formatting an already-formatted-and-filtered table with the
same identifier set does not yield an identical result; it fails. For every
identifier set and every table with the normalized schema `id`, `parts_id`,
`date`, `volume`, if `format_dataset_frame` succeeds then re-applying it to
the result raises KeyError on `parts_id`, because the formatted table's
columns are `unique_id`, `ds`, `y`. (Repeating the call on the same
*normalized* table with the same ids does return identical results, the
function being deterministic.) -/
theorem format_dataset_frame_reapply_fails (ids : List Int) (f g : Frame)
    (hcols : f.cols = ["id", "parts_id", "date", "volume"])
    (hok : format_dataset_frame ids f = Except.ok g) :
    format_dataset_frame ids g = Except.error "KeyError: parts_id" := by
  have hg := format_dataset_frame_ok_cols hcols hok
  unfold format_dataset_frame isin_select
  rw [hg]
  rw [show List.findIdx? (fun c => c == "parts_id") ["unique_id", "ds", "y"]
      = none from rfl]
  exact except_bind_error

/-- Witness for the amended C7 at the concrete frames above. -/
theorem format_dataset_frame_reapply_fails_witness :
    format_dataset_frame [2674] sample_formatted = Except.error "KeyError: parts_id" :=
  format_dataset_frame_reapply_fails [2674] sample_frame sample_formatted rfl rfl
